import Mathlib

set_option maxHeartbeats 1000000

namespace DeepClaude

/-!
Shallow embedding of the DeepClaude gateway core
(app/utils/model_cache.py, app/utils/db_pool.py, app/utils/db_manager_pool.py,
app/manager/model_manager.py, app/singlemodel/single_model.py).
Python OrderedDict state is modelled as an association list whose front is the
least-recently-used end; instances handed out by reference are modelled by
natural-number identities.
-/

/-! ## ModelInstanceCache (app/utils/model_cache.py) -/

/-- One cached entry: key and the identity of the cached instance. -/
abbrev CacheEntry := String × Nat

/-- Membership test mirroring the Python condition `model_key in self.instances`. -/
def cacheHasKey : List CacheEntry → String → Bool
  | [], _ => false
  | e :: rest, k => e.1 == k || cacheHasKey rest k

/-- Value lookup in the ordered dictionary (keys are unique in reachable states,
so the first match is the entry). -/
def cacheLookup : List CacheEntry → String → Option Nat
  | [], _ => none
  | e :: rest, k => if e.1 == k then some e.2 else cacheLookup rest k

/-- Removal of a key, as done by `self.instances.pop(model_key)`. -/
def cacheErase : List CacheEntry → String → List CacheEntry
  | [], _ => []
  | e :: rest, k => if e.1 == k then rest else e :: cacheErase rest k

/-- ModelInstanceCache.get: on a hit the entry is popped and re-appended at the
most-recently-used end and the instance returned; on a miss None is returned
and the dictionary left unchanged. -/
def cacheGet (c : List CacheEntry) (k : String) : Option Nat × List CacheEntry :=
  match cacheLookup c k with
  | some v => (some v, cacheErase c k ++ [(k, v)])
  | none => (none, c)

/-- Capacity check and insertion happening after the existing-key pop in
ModelInstanceCache.put: when the dictionary has reached max_size the first
(least recently used) entry is popped and returned; OrderedDict.popitem on an
empty dictionary raises KeyError, modelled as none. -/
def cachePutAux (maxSize : Nat) (c1 : List CacheEntry) (k : String) (v : Nat) :
    Option (Option String × List CacheEntry) :=
  if maxSize ≤ c1.length then
    match c1 with
    | [] => none
    | e :: rest => some (some e.1, rest ++ [(k, v)])
  else some (none, c1 ++ [(k, v)])

/-- ModelInstanceCache.put: an existing key is popped first, then the capacity
check runs, then the new entry is appended at the most-recently-used end.
The result carries the evicted key, if any. -/
def cachePut (maxSize : Nat) (c : List CacheEntry) (k : String) (v : Nat) :
    Option (Option String × List CacheEntry) :=
  cachePutAux maxSize (if cacheHasKey c k then cacheErase c k else c) k v

/-- A client-visible cache operation. -/
inductive CacheOp where
  | opGet (k : String)
  | opPut (k : String) (v : Nat)
deriving DecidableEq

/-- Replay of a sequence of cache operations from a given state. -/
def cacheRun (maxSize : Nat) : List CacheOp → List CacheEntry → Option (List CacheEntry)
  | [], c => some c
  | CacheOp.opGet k :: rest, c => cacheRun maxSize rest (cacheGet c k).2
  | CacheOp.opPut k v :: rest, c =>
    match cachePut maxSize c k v with
    | some p => cacheRun maxSize rest p.2
    | none => none

/-- States reachable from the freshly constructed (empty) cache. -/
def CacheReachable (maxSize : Nat) (c : List CacheEntry) : Prop :=
  ∃ ops, cacheRun maxSize ops [] = some c

theorem cacheLookup_hasKey {c : List CacheEntry} {k : String} {v : Nat}
    (h : cacheLookup c k = some v) : cacheHasKey c k = true := by
  induction c with
  | nil => simp [cacheLookup] at h
  | cons e rest ih =>
    rw [cacheLookup] at h
    rw [cacheHasKey]
    by_cases he : (e.1 == k) = true
    · simp [he]
    · simp only [he, if_false] at h
      simp [ih h]

theorem cacheErase_length {c : List CacheEntry} {k : String}
    (h : cacheHasKey c k = true) : (cacheErase c k).length + 1 = c.length := by
  induction c with
  | nil => simp [cacheHasKey] at h
  | cons e rest ih =>
    rw [cacheHasKey, Bool.or_eq_true] at h
    by_cases he : (e.1 == k) = true
    · simp [cacheErase, he]
    · have hr := h.resolve_left he
      have h2 := ih hr
      rw [cacheErase, if_neg he]
      simp only [List.length_cons]
      omega

theorem cachePutAux_small {maxSize : Nat} {c1 : List CacheEntry}
    (h : c1.length < maxSize) (k : String) (v : Nat) :
    cachePutAux maxSize c1 k v = some (none, c1 ++ [(k, v)]) := by
  unfold cachePutAux
  rw [if_neg (by omega)]

theorem cachePutAux_full {maxSize : Nat} {e : CacheEntry} {rest : List CacheEntry}
    (h : maxSize ≤ (e :: rest).length) (k : String) (v : Nat) :
    cachePutAux maxSize (e :: rest) k v = some (some e.1, rest ++ [(k, v)]) := by
  unfold cachePutAux
  rw [if_pos h]

theorem cachePut_spec {maxSize : Nat} (h1 : 1 ≤ maxSize) {c : List CacheEntry}
    (hc : c.length ≤ maxSize) (k : String) (v : Nat) :
    ∃ ev c2, cachePut maxSize c k v = some (ev, c2) ∧ c2.length ≤ maxSize ∧
      (cacheHasKey c k = true → ev = none) ∧
      (∀ k0, ev = some k0 → (c.map Prod.fst).head? = some k0) := by
  rw [cachePut]
  by_cases hk : cacheHasKey c k = true
  · have hlen : (cacheErase c k).length + 1 = c.length := cacheErase_length hk
    rw [if_pos hk, cachePutAux_small (by omega)]
    refine ⟨none, cacheErase c k ++ [(k, v)], rfl, ?_, fun _ => rfl, ?_⟩
    · rw [List.length_append]
      simp only [List.length_singleton]
      omega
    · intro k0 h0
      exact absurd h0 (by simp)
  · rw [if_neg hk]
    by_cases hfull : maxSize ≤ c.length
    · have hlenc : c.length = maxSize := le_antisymm hc hfull
      match c, hlenc, hfull with
      | e :: rest, hlenc, hfull =>
        rw [cachePutAux_full hfull]
        refine ⟨some e.1, rest ++ [(k, v)], rfl, ?_, ?_, ?_⟩
        · rw [List.length_append]
          simp only [List.length_singleton]
          simp only [List.length_cons] at hlenc
          omega
        · intro hcontra
          exact absurd hcontra hk
        · intro k0 h0
          simp only [Option.some.injEq] at h0
          simp [← h0]
      | [], hlenc, hfull =>
        exfalso
        simp only [List.length_nil] at hlenc
        omega
    · rw [cachePutAux_small (by omega)]
      refine ⟨none, c ++ [(k, v)], rfl, ?_, fun _ => rfl, ?_⟩
      · rw [List.length_append]
        simp only [List.length_singleton]
        omega
      · intro k0 h0
        exact absurd h0 (by simp)

theorem cacheGet_length (c : List CacheEntry) (k : String) :
    ((cacheGet c k).2).length = c.length := by
  rw [cacheGet]
  cases hl : cacheLookup c k with
  | none => rfl
  | some v =>
    have hk : cacheHasKey c k = true := cacheLookup_hasKey hl
    have := cacheErase_length hk
    simp only [List.length_append, List.length_singleton]
    omega

theorem cacheRun_length {maxSize : Nat} (h1 : 1 ≤ maxSize) :
    ∀ (ops : List CacheOp) (c c2 : List CacheEntry), c.length ≤ maxSize →
      cacheRun maxSize ops c = some c2 → c2.length ≤ maxSize := by
  intro ops
  induction ops with
  | nil =>
    intro c c2 hc h
    rw [cacheRun] at h
    cases h
    exact hc
  | cons op rest ih =>
    intro c c2 hc h
    cases op with
    | opGet k =>
      rw [cacheRun] at h
      exact ih _ _ (by rw [cacheGet_length]; exact hc) h
    | opPut k v =>
      rw [cacheRun] at h
      obtain ⟨ev, cnew, heq, hlen, -, -⟩ := cachePut_spec h1 hc k v
      rw [heq] at h
      exact ih _ _ hlen h

/-- C2: for every sequence of put/get operations on a ModelInstanceCache of
capacity k (at least 1): after any put the cache holds at most k entries; when
a put evicts, the evicted key is the least-recently-accessed (front) key among
the current entries; a put whose key is already present never evicts; and get
on a hit promotes the key to the most-recently-used end. -/
theorem modelInstanceCache_lru (maxSize : Nat) (h1 : 1 ≤ maxSize)
    (c : List CacheEntry) (h2 : CacheReachable maxSize c) (k : String) (v : Nat) :
    (∃ ev c2, cachePut maxSize c k v = some (ev, c2) ∧ c2.length ≤ maxSize ∧
      (cacheHasKey c k = true → ev = none) ∧
      (∀ k0, ev = some k0 → (c.map Prod.fst).head? = some k0)) ∧
    (∀ v0, cacheLookup c k = some v0 →
      ((cacheGet c k).2).getLast? = some (k, v0)) := by
  obtain ⟨ops, hops⟩ := h2
  have hc : c.length ≤ maxSize := cacheRun_length h1 ops [] c (by simp) hops
  refine ⟨cachePut_spec h1 hc k v, ?_⟩
  intro v0 hl
  rw [cacheGet, hl]
  simp

/-- Concrete instantiation of the C2 theorem: capacity 2, a reachable one-entry
cache, a put of a fresh key. -/
theorem modelInstanceCache_lru_witness :
    (1 ≤ 2 ∧ CacheReachable 2 [("a", 1)]) ∧
    ((∃ ev c2, cachePut 2 [("a", 1)] "b" 2 = some (ev, c2) ∧ c2.length ≤ 2 ∧
        (cacheHasKey [("a", 1)] "b" = true → ev = none) ∧
        (∀ k0, ev = some k0 → (([("a", 1)] : List CacheEntry).map Prod.fst).head? = some k0)) ∧
      (∀ v0, cacheLookup [("a", 1)] "b" = some v0 →
        ((cacheGet [("a", 1)] "b").2).getLast? = some ("b", v0))) :=
  ⟨⟨by decide, ⟨[CacheOp.opPut "a" 1], by decide⟩⟩,
    modelInstanceCache_lru 2 (by decide) [("a", 1)]
      ⟨[CacheOp.opPut "a" 1], by decide⟩ "b" 2⟩

/-! ## SQLiteConnectionPool (app/utils/db_pool.py)

The pool state after a successful `_initialize_pool`: `available` is the list
of free slot indices (popped from the front, appended at the back, exactly as
the Python list is used) and `inUse` is the `self.in_use` dictionary, modelled
as a total map over slot indices.  A slot's connection object is identified
with its slot index, which is what the identity scan in `release_connection`
recovers. -/

structure PoolState where
  n : Nat
  available : List Nat
  inUse : Nat → Bool

/-- The pool as built by `_initialize_pool` when all `n` connections open. -/
def poolInit (n : Nat) : PoolState :=
  ⟨n, List.range n, fun _ => false⟩

/-- get_connection: pop the first available index and mark it in use.  When no
index is available the retry loop re-polls the same emptiness condition until
max_wait elapses and the call returns None, leaving the state unchanged. -/
def getConnection (s : PoolState) : Option Nat × PoolState :=
  match s.available with
  | [] => (none, s)
  | i :: rest => (some i, ⟨s.n, rest, fun j => if j = i then true else s.inUse j⟩)

/-- release_connection: the identity scan over `self.pool` finds slot `c` for
connection `c` when `c < n`, appends it to available unless already present and
clears its in-use flag; an unrecognized connection is a logged no-op. -/
def releaseConnection (s : PoolState) (c : Nat) : PoolState :=
  if c < s.n then
    ⟨s.n,
     if c ∈ s.available then s.available else s.available ++ [c],
     fun j => if j = c then false else s.inUse j⟩
  else s

/-- A pool client operation: one get_connection call or one
release_connection call for connection `c`. -/
inductive PoolOp where
  | acquire
  | release (c : Nat)

/-- Replay of an interleaving of pool operations. -/
def poolExec (s : PoolState) : List PoolOp → PoolState
  | [] => s
  | PoolOp.acquire :: rest => poolExec (getConnection s).2 rest
  | PoolOp.release c :: rest => poolExec (releaseConnection s c) rest

/-- An interleaving in which every connection returned by get_connection is
released exactly once: each release targets a connection currently held and
no connection is still held at the end. -/
def poolValid (s : PoolState) (held : List Nat) : List PoolOp → Bool
  | [] => held.isEmpty
  | PoolOp.acquire :: rest =>
    match getConnection s with
    | (some i, s2) => poolValid s2 (i :: held) rest
    | (none, s2) => poolValid s2 held rest
  | PoolOp.release c :: rest =>
    held.contains c && poolValid (releaseConnection s c) (held.erase c) rest

/-- Number of slots currently flagged as in use. -/
def inUseCount (s : PoolState) : Nat :=
  ((List.range s.n).filter (fun i => s.inUse i)).length

/-- The pool bookkeeping invariant: available indices are in range and unique,
and a slot is available exactly when its in-use flag is clear. -/
def PoolInv (s : PoolState) : Prop :=
  (∀ i ∈ s.available, i < s.n) ∧ s.available.Nodup ∧
    ∀ i, i < s.n → (i ∈ s.available ↔ s.inUse i = false)

theorem poolInv_init (n : Nat) : PoolInv (poolInit n) := by
  unfold PoolInv poolInit
  refine ⟨?_, List.nodup_range n, ?_⟩
  · intro i hi
    exact List.mem_range.mp hi
  · intro i hi
    simp [List.mem_range, hi]

theorem poolInv_get {s : PoolState} (h : PoolInv s) : PoolInv (getConnection s).2 := by
  obtain ⟨hrange, hnodup, hiff⟩ := h
  rw [getConnection]
  cases hav : s.available with
  | nil => exact ⟨hrange, hnodup, hiff⟩
  | cons i rest =>
    rw [hav] at hrange hnodup hiff
    refine ⟨?_, ?_, ?_⟩
    · intro j hj
      exact hrange j (List.mem_cons_of_mem i hj)
    · exact hnodup.of_cons
    · intro j hj
      by_cases hji : j = i
      · subst hji
        have : j ∉ rest := (List.nodup_cons.mp hnodup).1
        simp [this]
      · have := hiff j hj
        simp only [List.mem_cons] at this
        simp only [if_neg hji]
        constructor
        · intro hjr
          exact (this.mp (Or.inr hjr))
        · intro hfalse
          rcases this.mpr hfalse with h1 | h2
          · exact absurd h1 hji
          · exact h2

theorem poolInv_release {s : PoolState} (h : PoolInv s) (c : Nat) :
    PoolInv (releaseConnection s c) := by
  obtain ⟨hrange, hnodup, hiff⟩ := h
  rw [releaseConnection]
  by_cases hc : c < s.n
  · rw [if_pos hc]
    by_cases hmem : c ∈ s.available
    · rw [if_pos hmem]
      refine ⟨hrange, hnodup, ?_⟩
      intro j hj
      by_cases hjc : j = c
      · subst hjc
        simp [hmem]
      · simp only [if_neg hjc]
        exact hiff j hj
    · rw [if_neg hmem]
      refine ⟨?_, ?_, ?_⟩
      · intro j hj
        rcases List.mem_append.mp hj with h1 | h2
        · exact hrange j h1
        · simp only [List.mem_singleton] at h2
          subst h2
          exact hc
      · exact List.Nodup.append hnodup (List.nodup_singleton c)
          (by simpa [List.disjoint_singleton] using hmem)
      · intro j hj
        by_cases hjc : j = c
        · subst hjc
          simp
        · simp only [List.mem_append, List.mem_singleton, if_neg hjc]
          constructor
          · intro hd
            rcases hd with h1 | h2
            · exact (hiff j hj).mp h1
            · exact absurd h2 hjc
          · intro hfalse
            exact Or.inl ((hiff j hj).mpr hfalse)
  · rw [if_neg hc]
    exact ⟨hrange, hnodup, hiff⟩

theorem poolInv_exec {s : PoolState} (h : PoolInv s) :
    ∀ ops : List PoolOp, PoolInv (poolExec s ops) := by
  intro ops
  induction ops generalizing s with
  | nil => exact h
  | cons op rest ih =>
    cases op with
    | acquire =>
      rw [poolExec]
      exact ih (poolInv_get h)
    | release c =>
      rw [poolExec]
      exact ih (poolInv_release h c)

theorem poolExec_n (s : PoolState) (ops : List PoolOp) :
    (poolExec s ops).n = s.n := by
  induction ops generalizing s with
  | nil => rfl
  | cons op rest ih =>
    cases op with
    | acquire =>
      rw [poolExec, ih]
      rw [getConnection]
      cases s.available <;> rfl
    | release c =>
      rw [poolExec, ih]
      rw [releaseConnection]
      by_cases hc : c < s.n
      · rw [if_pos hc]
      · rw [if_neg hc]

/-- C1: along every interleaving of get_connection/release_connection calls in
which each returned connection is released exactly once, at every step each
slot index is in exactly one of the states available or in-use, and at most n
connections are simultaneously in use. -/
theorem pool_slot_state_invariant (n : Nat) (ops : List PoolOp)
    (hwf : poolValid (poolInit n) [] ops = true) (m : Nat) :
    (∀ i, i < n →
      ((i ∈ (poolExec (poolInit n) (List.take m ops)).available ∧
        (poolExec (poolInit n) (List.take m ops)).inUse i = false) ∨
       (i ∉ (poolExec (poolInit n) (List.take m ops)).available ∧
        (poolExec (poolInit n) (List.take m ops)).inUse i = true))) ∧
    inUseCount (poolExec (poolInit n) (List.take m ops)) ≤ n := by
  have hinv := poolInv_exec (poolInv_init n) (List.take m ops)
  have hn : (poolExec (poolInit n) (List.take m ops)).n = n := poolExec_n (poolInit n) (List.take m ops)
  obtain ⟨hrange, hnodup, hiff⟩ := hinv
  constructor
  · intro i hi
    have hi2 : i < (poolExec (poolInit n) (List.take m ops)).n := lt_of_lt_of_eq hi hn.symm
    cases hb : (poolExec (poolInit n) (List.take m ops)).inUse i with
    | false => exact Or.inl ⟨(hiff i hi2).mpr hb, rfl⟩
    | true =>
      refine Or.inr ⟨?_, rfl⟩
      intro hmem
      have hf := (hiff i hi2).mp hmem
      rw [hf] at hb
      cases hb
  · rw [inUseCount]
    calc ((List.range (poolExec (poolInit n) (List.take m ops)).n).filter
            (fun i => (poolExec (poolInit n) (List.take m ops)).inUse i)).length
        ≤ (List.range (poolExec (poolInit n) (List.take m ops)).n).length :=
          List.length_filter_le _ _
      _ = n := by rw [List.length_range, hn]

/-- Concrete instantiation of the C1 theorem: a pool of 2 slots, both acquired
and then each released exactly once, observed after 3 operations. -/
theorem pool_slot_state_invariant_witness :
    (poolValid (poolInit 2) []
        [PoolOp.acquire, PoolOp.acquire, PoolOp.release 0, PoolOp.release 1] = true) ∧
    ((∀ i, i < 2 →
      ((i ∈ (poolExec (poolInit 2) (List.take 3
          [PoolOp.acquire, PoolOp.acquire, PoolOp.release 0, PoolOp.release 1])).available ∧
        (poolExec (poolInit 2) (List.take 3
          [PoolOp.acquire, PoolOp.acquire, PoolOp.release 0, PoolOp.release 1])).inUse i = false) ∨
       (i ∉ (poolExec (poolInit 2) (List.take 3
          [PoolOp.acquire, PoolOp.acquire, PoolOp.release 0, PoolOp.release 1])).available ∧
        (poolExec (poolInit 2) (List.take 3
          [PoolOp.acquire, PoolOp.acquire, PoolOp.release 0, PoolOp.release 1])).inUse i = true))) ∧
    inUseCount (poolExec (poolInit 2) (List.take 3
        [PoolOp.acquire, PoolOp.acquire, PoolOp.release 0, PoolOp.release 1])) ≤ 2) :=
  ⟨by decide,
    pool_slot_state_invariant 2
      [PoolOp.acquire, PoolOp.acquire, PoolOp.release 0, PoolOp.release 1]
      (by decide) 3⟩

/-! ## ConfigStore data model (app/utils/db_manager_pool.py)

Rows of the four tables created by `_init_db`.  Integer columns are Nat,
`is_valid` keeps its stored 0/1 integer.  Each accessor takes a `fail` flag
injecting a datastore error raised while the operation runs; the body is
written in `Except` and the source's blanket `except` clause is the final
`match` that downgrades any error to the operation's fallback value. -/

structure ProviderRow where
  pid : Nat
  provider_name : String
  api_key : String
  api_base_url : String
  api_request_address : String
  provider_format : String
  is_valid : Nat
deriving DecidableEq

structure ModelRow where
  mid : Nat
  provider_id : Nat
  model_type : String
  model_id : String
  model_name : String
  model_format : String
  is_valid : Nat
  is_origin_reasoning : Nat
deriving DecidableEq

structure CompositeRow where
  cid : Nat
  model_name : String
  reasoner_model_id : Nat
  general_model_id : Nat
  is_valid : Nat
deriving DecidableEq

structure SettingRow where
  setting_key : String
  setting_value : String
  setting_type : String
deriving DecidableEq

structure DBTables where
  providers : List ProviderRow
  models : List ModelRow
  composites : List CompositeRow
  settings : List SettingRow
deriving DecidableEq

/-- A Python value as stored in or read from a system setting.  `pyJson`
carries the JSON text (json.loads/json.dumps are abstracted as the identity on
that text) and `pyFloat` the float literal (float() parsing abstracted). -/
inductive PyValue where
  | pyNone
  | pyBool (b : Bool)
  | pyInt (n : Int)
  | pyFloat (s : String)
  | pyStr (s : String)
  | pyJson (s : String)
deriving DecidableEq

/-- The dictionary built from a provider row by the single-row provider
accessors (is_valid passes through Python bool()). -/
structure ProviderDict where
  pid : Nat
  provider_name : String
  api_key : String
  api_base_url : String
  api_request_address : String
  provider_format : String
  is_valid : Bool
deriving DecidableEq

def providerToDict (r : ProviderRow) : ProviderDict :=
  ⟨r.pid, r.provider_name, r.api_key, r.api_base_url, r.api_request_address,
   r.provider_format, r.is_valid != 0⟩

structure ModelDict where
  mid : Nat
  model_id : String
  model_name : String
  model_type : String
  model_format : String
  provider_id : Nat
  is_origin_reasoning : Bool
  is_valid : Bool
deriving DecidableEq

def modelToDict (r : ModelRow) : ModelDict :=
  ⟨r.mid, r.model_id, r.model_name, r.model_type, r.model_format,
   r.provider_id, r.is_origin_reasoning != 0, r.is_valid != 0⟩

structure CompositeDict where
  cid : Nat
  model_name : String
  reasoner_model_id : Nat
  general_model_id : Nat
  is_valid : Bool
deriving DecidableEq

def compositeToDict (r : CompositeRow) : CompositeDict :=
  ⟨r.cid, r.model_name, r.reasoner_model_id, r.general_model_id, r.is_valid != 0⟩

/-- A column value as handed back by the sqlite3.Row row factory. -/
inductive Col where
  | colInt (n : Nat)
  | colText (s : String)
deriving DecidableEq

/-- sqlite3.Row indexing: an unknown column name raises IndexError. -/
def rowGetE (row : List (String × Col)) (k : String) : Except String Col :=
  match row.find? (fun e => e.1 == k) with
  | some e => Except.ok e.2
  | none => Except.error ("IndexError: no such column " ++ k)

def colText (c : Col) : String :=
  match c with
  | Col.colText s => s
  | Col.colInt _ => ""

def colNat (c : Col) : Nat :=
  match c with
  | Col.colInt n => n
  | Col.colText _ => 0

/-! ### Providers -/

/-- The row produced by the SELECT in get_all_providers; it omits the
api_key column. -/
def providersSelectRow (r : ProviderRow) : List (String × Col) :=
  [("id", Col.colInt r.pid), ("provider_name", Col.colText r.provider_name),
   ("api_base_url", Col.colText r.api_base_url),
   ("api_request_address", Col.colText r.api_request_address),
   ("provider_format", Col.colText r.provider_format),
   ("is_valid", Col.colInt r.is_valid)]

/-- DBManagerPool.get_all_providers.  The row-decoding loop reads the columns
in the order the dict literal is built: id, provider_name, api_key, ...; the
api_key read is against a SELECT that did not request that column. -/
def get_all_providers (fail : Bool) (db : DBTables) : List (String × ProviderDict) :=
  let body : Except String (List (String × ProviderDict)) :=
    if fail then Except.error "sqlite3.Error" else
      (db.providers.map providersSelectRow).foldlM (fun acc row => do
        let idc ← rowGetE row "id"
        let namec ← rowGetE row "provider_name"
        let keyc ← rowGetE row "api_key"
        let basec ← rowGetE row "api_base_url"
        let reqc ← rowGetE row "api_request_address"
        let fmtc ← rowGetE row "provider_format"
        let validc ← rowGetE row "is_valid"
        Except.ok (acc ++ [(colText namec,
          ⟨colNat idc, colText namec, colText keyc, colText basec, colText reqc,
           colText fmtc, colNat validc != 0⟩)])) []
  match body with
  | Except.ok r => r
  | Except.error _ => []

/-- DBManagerPool.get_provider_for_name.  The WHERE clause filters on the name
only: there is no is_valid condition. -/
def get_provider_for_name (fail : Bool) (db : DBTables) (provider_name : String) :
    Option ProviderDict :=
  let body : Except String (Option ProviderDict) :=
    if fail then Except.error "sqlite3.Error" else
      Except.ok ((db.providers.find? (fun r => r.provider_name == provider_name)).map providerToDict)
  match body with
  | Except.ok r => r
  | Except.error _ => none

/-- DBManagerPool.get_provider_for_id.  The WHERE clause filters on the id
only: there is no is_valid condition. -/
def get_provider_for_id (fail : Bool) (db : DBTables) (provider_id : Nat) :
    Option ProviderDict :=
  let body : Except String (Option ProviderDict) :=
    if fail then Except.error "sqlite3.Error" else
      Except.ok ((db.providers.find? (fun r => r.pid == provider_id)).map providerToDict)
  match body with
  | Except.ok r => r
  | Except.error _ => none

/-- Truthiness of `config.get("id", None)` in the save operations: None and 0
are falsy, any other integer is truthy. -/
def optTruthy (o : Option Nat) : Bool :=
  match o with
  | some n => n != 0
  | none => false

/-- AUTOINCREMENT row id for an insert. -/
def nextRowId (ids : List Nat) : Nat :=
  ids.foldl max 0 + 1

structure ProviderConfigIn where
  pid : Option Nat
  provider_name : String
  api_key : String
  api_base_url : String
  api_request_address : String
  provider_format : String
  is_valid : Bool
deriving DecidableEq

/-- DBManagerPool.save_provider: UPDATE by id when the config carries a truthy
id, INSERT otherwise; any datastore error is downgraded to False with the
transaction rolled back by the connection wrapper. -/
def save_provider (fail : Bool) (db : DBTables) (cfg : ProviderConfigIn) : Bool × DBTables :=
  let validN : Nat := if cfg.is_valid then 1 else 0
  let body : Except String (List ProviderRow) :=
    if fail then Except.error "sqlite3.Error" else
      Except.ok (
        if optTruthy cfg.pid then
          db.providers.map (fun r =>
            if r.pid == cfg.pid.getD 0 then
              ⟨r.pid, cfg.provider_name, cfg.api_key, cfg.api_base_url,
               cfg.api_request_address, cfg.provider_format, validN⟩
            else r)
        else
          db.providers ++ [⟨nextRowId (db.providers.map ProviderRow.pid),
            cfg.provider_name, cfg.api_key, cfg.api_base_url,
            cfg.api_request_address, cfg.provider_format, validN⟩])
  match body with
  | Except.ok rows => (true, { db with providers := rows })
  | Except.error _ => (false, db)

/-- DBManagerPool.delete_provider. -/
def delete_provider (fail : Bool) (db : DBTables) (provider_id : Nat) : Bool × DBTables :=
  let body : Except String (List ProviderRow) :=
    if fail then Except.error "sqlite3.Error" else
      Except.ok (db.providers.filter (fun r => r.pid != provider_id))
  match body with
  | Except.ok rows => (true, { db with providers := rows })
  | Except.error _ => (false, db)

/-! ### Models -/

/-- DBManagerPool.get_all_models with its optional model_type filter (the
SELECT lists every column the decoding loop reads, and has no validity
filter). -/
def get_all_models (fail : Bool) (db : DBTables) (model_type : Option String) :
    List (String × ModelDict) :=
  let body : Except String (List (String × ModelDict)) :=
    if fail then Except.error "sqlite3.Error" else
      Except.ok (((match model_type with
        | some t => db.models.filter (fun r => r.model_type == t)
        | none => db.models) : List ModelRow).map
          (fun r => (r.model_name, modelToDict r)))
  match body with
  | Except.ok r => r
  | Except.error _ => []

/-- DBManagerPool.get_model_for_name: WHERE is_valid = 1 AND model_name = ?. -/
def get_model_for_name (fail : Bool) (db : DBTables) (model_name : String) :
    Option ModelDict :=
  let body : Except String (Option ModelDict) :=
    if fail then Except.error "sqlite3.Error" else
      Except.ok ((db.models.find?
        (fun r => r.is_valid == 1 && r.model_name == model_name)).map modelToDict)
  match body with
  | Except.ok r => r
  | Except.error _ => none

/-- DBManagerPool.get_model_for_id: WHERE is_valid = 1 AND id = ?. -/
def get_model_for_id (fail : Bool) (db : DBTables) (models_id : Nat) :
    Option ModelDict :=
  let body : Except String (Option ModelDict) :=
    if fail then Except.error "sqlite3.Error" else
      Except.ok ((db.models.find?
        (fun r => r.is_valid == 1 && r.mid == models_id)).map modelToDict)
  match body with
  | Except.ok r => r
  | Except.error _ => none

structure ModelConfigIn where
  mid : Option Nat
  model_name : String
  model_id : String
  api_key : String
  provider_id : Option Nat
  is_origin_reasoning : Bool
  is_valid : Bool
  model_type : String
  model_format : String
deriving DecidableEq

/-- DBManagerPool.save_model.  Both the UPDATE and the INSERT statements name
an api_key column, but the models table created by _init_db has no such
column, so the statement always raises an operational error at prepare time
and the handler returns False with the store unchanged. -/
def save_model (fail : Bool) (db : DBTables) (cfg : ModelConfigIn) : Bool × DBTables :=
  (false, db)

/-- DBManagerPool.delete_model. -/
def delete_model (fail : Bool) (db : DBTables) (models_id : Nat) : Bool × DBTables :=
  let body : Except String (List ModelRow) :=
    if fail then Except.error "sqlite3.Error" else
      Except.ok (db.models.filter (fun r => r.mid != models_id))
  match body with
  | Except.ok rows => (true, { db with models := rows })
  | Except.error _ => (false, db)

/-! ### Composite models -/

/-- DBManagerPool.get_all_composite_models (no validity filter). -/
def get_all_composite_models (fail : Bool) (db : DBTables) :
    List (String × CompositeDict) :=
  let body : Except String (List (String × CompositeDict)) :=
    if fail then Except.error "sqlite3.Error" else
      Except.ok (db.composites.map (fun r => (r.model_name, compositeToDict r)))
  match body with
  | Except.ok r => r
  | Except.error _ => []

/-- DBManagerPool.get_composite_model: WHERE model_name = ? AND is_valid = 1. -/
def get_composite_model (fail : Bool) (db : DBTables) (model_name : String) :
    Option CompositeDict :=
  let body : Except String (Option CompositeDict) :=
    if fail then Except.error "sqlite3.Error" else
      Except.ok ((db.composites.find?
        (fun r => r.model_name == model_name && r.is_valid == 1)).map compositeToDict)
  match body with
  | Except.ok r => r
  | Except.error _ => none

structure CompositeConfigIn where
  cid : Option Nat
  model_name : String
  reasoner_model_id : Nat
  general_model_id : Nat
  is_valid : Bool
deriving DecidableEq

/-- DBManagerPool.save_composite_model (the UPDATE leaves model_name
unchanged, matching the source SQL). -/
def save_composite_model (fail : Bool) (db : DBTables) (cfg : CompositeConfigIn) :
    Bool × DBTables :=
  let validN : Nat := if cfg.is_valid then 1 else 0
  let body : Except String (List CompositeRow) :=
    if fail then Except.error "sqlite3.Error" else
      Except.ok (
        if optTruthy cfg.cid then
          db.composites.map (fun r =>
            if r.cid == cfg.cid.getD 0 then
              ⟨r.cid, r.model_name, cfg.reasoner_model_id, cfg.general_model_id, validN⟩
            else r)
        else
          db.composites ++ [⟨nextRowId (db.composites.map CompositeRow.cid),
            cfg.model_name, cfg.reasoner_model_id, cfg.general_model_id, validN⟩])
  match body with
  | Except.ok rows => (true, { db with composites := rows })
  | Except.error _ => (false, db)

/-- DBManagerPool.delete_composite_model. -/
def delete_composite_model (fail : Bool) (db : DBTables) (composite_id : Nat) :
    Bool × DBTables :=
  let body : Except String (List CompositeRow) :=
    if fail then Except.error "sqlite3.Error" else
      Except.ok (db.composites.filter (fun r => r.cid != composite_id))
  match body with
  | Except.ok rows => (true, { db with composites := rows })
  | Except.error _ => (false, db)

/-! ### System settings -/

/-- Digit-string parsing used to model Python int(). -/
def digitsToNat (l : List Char) : Option Nat :=
  if l = [] then none
  else if l.all Char.isDigit then
    some (l.foldl (fun acc c => acc * 10 + (c.toNat - 48)) 0)
  else none

/-- Python int() on a string: an optional sign followed by digits parses,
anything else (such as "True") raises ValueError, modelled as none.
(Leading whitespace, a leading plus and underscore separators, which never
arise here, are not modelled.) -/
def pyIntParse (s : String) : Option Int :=
  match s.data with
  | '-' :: rest => (digitsToNat rest).map (fun n => -(n : Int))
  | l => (digitsToNat l).map (fun n => (n : Int))

/-- Python str.lower(). -/
def pyLower (s : String) : String :=
  String.mk (s.data.map Char.toLower)

/-- Deserialization of a stored setting by its declared type tag, as in the
bodies of get_setting and get_all_settings.  Python int() rejects text that is
not an integer literal; float and json parsing are abstracted as carrying the
stored text. -/
def convertSettingValue (value ty : String) : Except String PyValue :=
  if ty = "int" then
    match pyIntParse value with
    | some n => Except.ok (PyValue.pyInt n)
    | none => Except.error "ValueError: invalid literal for int()"
  else if ty = "float" then Except.ok (PyValue.pyFloat value)
  else if ty = "bool" then
    Except.ok (PyValue.pyBool (["true", "1", "yes"].contains (pyLower value)))
  else if ty = "json" then Except.ok (PyValue.pyJson value)
  else Except.ok (PyValue.pyStr value)

/-- DBManagerPool.get_setting. -/
def get_setting (fail : Bool) (db : DBTables) (key : String) : Option PyValue :=
  let body : Except String (Option PyValue) :=
    if fail then Except.error "sqlite3.Error" else
      match db.settings.find? (fun r => r.setting_key == key) with
      | some r => (convertSettingValue r.setting_value r.setting_type).map some
      | none => Except.ok none
  match body with
  | Except.ok r => r
  | Except.error _ => none

/-- DBManagerPool.get_all_settings. -/
def get_all_settings (fail : Bool) (db : DBTables) : List (String × PyValue) :=
  let body : Except String (List (String × PyValue)) :=
    if fail then Except.error "sqlite3.Error" else
      db.settings.foldlM (fun acc r => do
        let v ← convertSettingValue r.setting_value r.setting_type
        Except.ok (acc ++ [(r.setting_key, v)])) []
  match body with
  | Except.ok r => r
  | Except.error _ => []

/-- The isinstance chain of save_setting.  In Python bool is a subclass of
int, so isinstance(value, int) is already true for a bool and the dedicated
bool branch below it is unreachable: a bool is serialized through the int
branch as str(True) = "True" / str(False) = "False" under type tag "int". -/
def pyTypeAndRepr (v : PyValue) : String × String :=
  match v with
  | PyValue.pyInt n => ("int", toString n)
  | PyValue.pyBool b => ("int", if b then "True" else "False")
  | PyValue.pyFloat s => ("float", s)
  | PyValue.pyJson s => ("json", s)
  | PyValue.pyStr s => ("str", s)
  | PyValue.pyNone => ("str", "None")

/-- Row replacement or insertion for save_setting's UPDATE/INSERT pair. -/
def upsertSetting (l : List SettingRow) (key value ty : String) : List SettingRow :=
  if l.any (fun r => r.setting_key == key) then
    l.map (fun r => if r.setting_key == key then ⟨key, value, ty⟩ else r)
  else l ++ [⟨key, value, ty⟩]

/-- DBManagerPool.save_setting. -/
def save_setting (fail : Bool) (db : DBTables) (key : String) (v : PyValue) :
    Bool × DBTables :=
  let tr := pyTypeAndRepr v
  let body : Except String (List SettingRow) :=
    if fail then Except.error "sqlite3.Error" else
      Except.ok (upsertSetting db.settings key tr.2 tr.1)
  match body with
  | Except.ok rows => (true, { db with settings := rows })
  | Except.error _ => (false, db)

/-- DBManagerPool.delete_setting. -/
def delete_setting (fail : Bool) (db : DBTables) (key : String) : Bool × DBTables :=
  let body : Except String (List SettingRow) :=
    if fail then Except.error "sqlite3.Error" else
      Except.ok (db.settings.filter (fun r => r.setting_key != key))
  match body with
  | Except.ok rows => (true, { db with settings := rows })
  | Except.error _ => (false, db)

/-! ### Startup, export and bulk import -/

/-- The default rows seeded by _init_system_settings. -/
def defaultSettings : List SettingRow :=
  [⟨"log_level", "INFO", "str"⟩,
   ⟨"allow_origins", "[\"*\"]", "json"⟩,
   ⟨"api_key", "123456", "str"⟩,
   ⟨"proxy_open", "false", "bool"⟩,
   ⟨"proxy_address", "127.0.0.1:7890", "str"⟩,
   ⟨"model_cache_size", "5", "int"⟩,
   ⟨"save_deepseek_tokens", "false", "bool"⟩,
   ⟨"save_deepseek_tokens_max_tokens", "5", "int"⟩]

/-- DBManagerPool._init_db: table creation (a no-op on the typed store) and
the settings seeding of _init_system_settings (which runs only when the table
is empty and whose own errors are caught inside it).  A datastore error in
_init_db itself is logged and RE-RAISED, unlike every other operation. -/
def initDb (fail : Bool) (db : DBTables) : Except Unit DBTables :=
  if fail then Except.error () else
    Except.ok (if 0 < db.settings.length then db
      else { db with settings := defaultSettings })

structure ExportDict where
  providers : List (String × ProviderDict)
  models : List (String × ModelDict)
  composite_models : List (String × CompositeDict)
  system : List (String × PyValue)
deriving DecidableEq

/-- DBManagerPool.export_config: each section is one get_all call on its own
pooled connection (the fail flags inject a datastore error into each). -/
def export_config (f1 f2 f3 f4 : Bool) (db : DBTables) : ExportDict :=
  { providers := get_all_providers f1 db,
    models := get_all_models f2 db none,
    composite_models := get_all_composite_models f3 db,
    system := get_all_settings f4 db }

structure ImportConfigIn where
  providers : List ProviderConfigIn
  models : List ModelConfigIn
  composites : List CompositeConfigIn
  system : List (String × PyValue)
deriving DecidableEq

/-- DBManagerPool.import_config.  The four DELETE statements run on the outer
pooled connection and are committed only when its with-block exits, so they
remove exactly the rows that existed when import_config began; every save_*
call inside the loops acquires its own pooled connection and commits
immediately against the store.  `fail` injects a datastore error into the
outer block (before the loops run), which the handler downgrades to False
while the connection wrapper rolls the pending deletes back. -/
def runImportConfig (fail : Bool) (db : DBTables) (cfg : ImportConfigIn) :
    Bool × DBTables :=
  if fail then (false, db) else
    let doomedProviders := db.providers.map ProviderRow.pid
    let doomedModels := db.models.map ModelRow.mid
    let doomedComposites := db.composites.map CompositeRow.cid
    let doomedSettings := db.settings.map SettingRow.setting_key
    let db1 := cfg.providers.foldl (fun d c => (save_provider false d c).2) db
    let db2 := cfg.models.foldl (fun d c => (save_model false d c).2) db1
    let db3 := cfg.composites.foldl (fun d c => (save_composite_model false d c).2) db2
    let db4 := cfg.system.foldl (fun d kv => (save_setting false d kv.1 kv.2).2) db3
    (true,
     ⟨db4.providers.filter (fun r => !(doomedProviders.contains r.pid)),
      db4.models.filter (fun r => !(doomedModels.contains r.mid)),
      db4.composites.filter (fun r => !(doomedComposites.contains r.cid)),
      db4.settings.filter (fun r => !(doomedSettings.contains r.setting_key))⟩)

/-! ## ModelManager (app/manager/model_manager.py) -/

/-- Python dict.get on the settings dictionary: None when the key is absent. -/
def cfgGet (cfg : List (String × PyValue)) (key : String) : PyValue :=
  match cfg.find? (fun e => e.1 == key) with
  | some e => e.2
  | none => PyValue.pyNone

/-- Attribute call value.bool() as written in create_instance.  No value a
system setting can take (None, bool, int, float, str, list or dict) defines an
attribute named bool, so this call raises AttributeError for every possible
argument. -/
def pyBoolMethodCall (v : PyValue) : Except String Bool :=
  Except.error "AttributeError: object has no attribute bool"

/-- The key/value view of the provider dict against which create_instance does
its subscript accesses; the keys are exactly those built by
get_provider_for_id. -/
def providerDictItems (p : ProviderDict) : List (String × Col) :=
  [("id", Col.colInt p.pid), ("provider_name", Col.colText p.provider_name),
   ("api_key", Col.colText p.api_key), ("api_base_url", Col.colText p.api_base_url),
   ("api_request_address", Col.colText p.api_request_address),
   ("provider_format", Col.colText p.provider_format),
   ("is_valid", Col.colInt (if p.is_valid then 1 else 0))]

/-- Python dict subscript ["k"]: KeyError on a missing key. -/
def dictGetE (items : List (String × Col)) (k : String) : Except String Col :=
  match items.find? (fun e => e.1 == k) with
  | some e => Except.ok e.2
  | none => Except.error ("KeyError: " ++ k)

/-- The mutable state of a ModelManager: the instance cache (capacity 5) and a
counter supplying the identity of the next client object a constructor would
build. -/
structure MMState where
  cache : List CacheEntry
  nextInstance : Nat
deriving DecidableEq

/-- The keyword arguments shared by the three client constructors, evaluated
left to right before any constructor body runs: api_key=provider["api_key"],
api_url=provider["api_url"], then proxy=self.config.get("proxy_address") if
self.config.get("proxy_open").bool() else None. -/
def clientKwargs (cfg : List (String × PyValue)) (provider : Option ProviderDict) :
    Except String (Option PyValue) := do
  let items ← match provider with
    | some p => Except.ok (providerDictItems p)
    | none => Except.error "TypeError: NoneType is not subscriptable"
  let _ ← dictGetE items "api_key"
  let _ ← dictGetE items "api_url"
  let b ← pyBoolMethodCall (cfgGet cfg "proxy_open")
  Except.ok (if b then some (cfgGet cfg "proxy_address") else none)

/-- ModelManager.create_instance: construct the client matching the format,
put it in the cache under str(provider_id) + "-" + model_format and return
it; an unrecognized format raises ValueError.  Each branch first evaluates the
constructor keyword arguments (clientKwargs), whose failure propagates; a
successfully constructed client is a fresh instance identity. -/
def create_instance (cfg : List (String × PyValue)) (db : DBTables) (st : MMState)
    (provider_id : Nat) (model_format : String) : Except String (Nat × MMState) :=
  let instance_id := toString provider_id ++ "-" ++ model_format
  let provider := get_provider_for_id false db provider_id
  if model_format = "openai" then do
    let _ ← clientKwargs cfg provider
    match cachePut 5 st.cache instance_id st.nextInstance with
    | some p => Except.ok (st.nextInstance, ⟨p.2, st.nextInstance + 1⟩)
    | none => Except.error "KeyError: popitem from an empty dictionary"
  else if model_format = "anthropic" then do
    let _ ← clientKwargs cfg provider
    match cachePut 5 st.cache instance_id st.nextInstance with
    | some p => Except.ok (st.nextInstance, ⟨p.2, st.nextInstance + 1⟩)
    | none => Except.error "KeyError: popitem from an empty dictionary"
  else if model_format = "reasoner" then do
    let _ ← clientKwargs cfg provider
    match cachePut 5 st.cache instance_id st.nextInstance with
    | some p => Except.ok (st.nextInstance, ⟨p.2, st.nextInstance + 1⟩)
    | none => Except.error "KeyError: popitem from an empty dictionary"
  else Except.error ("ValueError: unsupported provider format " ++ model_format)

/-- The per-side resolution step of ModelManager.composite_model: derive the
instance key, consult the cache, and only on a miss call create_instance. -/
def resolveInstance (cfg : List (String × PyValue)) (db : DBTables) (st : MMState)
    (provider_id : Nat) (model_format : String) : Except String (Nat × MMState) :=
  let instance_id := toString provider_id ++ "-" ++ model_format
  match cacheGet st.cache instance_id with
  | (some inst, c2) => Except.ok (inst, ⟨c2, st.nextInstance⟩)
  | (none, _) => create_instance cfg db st provider_id model_format

/-- ModelManager.get_model_details: declared types reasoner/general resolve a
single Model by name; composite resolves a CompositeModel; anything else
(the empty declared type in particular) tries the single Model first and falls
back to the CompositeModel. -/
def get_model_details (db : DBTables) (model_name model_type : String) :
    Except String (Sum ModelDict CompositeDict × String) :=
  if model_type = "reasoner" ∨ model_type = "general" then
    match get_model_for_name false db model_name with
    | none => Except.error ("ValueError: model " ++ model_name ++ " does not exist")
    | some m => Except.ok (Sum.inl m, m.model_type)
  else if model_type = "composite" then
    match get_composite_model false db model_name with
    | none => Except.error ("ValueError: composite model " ++ model_name ++ " does not exist")
    | some m => Except.ok (Sum.inr m, "composite")
  else
    match get_model_for_name false db model_name with
    | some m => Except.ok (Sum.inl m, m.model_type)
    | none =>
      match get_composite_model false db model_name with
      | some m => Except.ok (Sum.inr m, "composite")
      | none => Except.error ("ValueError: model " ++ model_name ++ " does not exist")

/-! ## SingleModel (app/singlemodel/single_model.py) -/

structure ChatMessage where
  role : String
  content : String
deriving DecidableEq

structure UsageInfo where
  prompt_tokens : Nat
  completion_tokens : Nat
  total_tokens : Nat
deriving DecidableEq

structure ChatChoice where
  message : ChatMessage
  index : Nat
  finish_reason : String
deriving DecidableEq

structure ChatResponse where
  id : String
  object : String
  created : Nat
  model : String
  usage : Option UsageInfo
  error : Option String
  choices : List ChatChoice
deriving DecidableEq

/-- SingleModel.chat_completions_without_stream.  `enc` is the shared
tokenizer measured as len(encoding.encode(text)); `clientResult` is the
outcome of the vendor client's chat_completion call (Except.error carries
str(e) for a raised exception).  The whole body runs inside try/except: any
failure is downgraded to the fixed error-shaped response and never re-raised. -/
def chat_completions_without_stream (enc : String → Nat) (chatId : String)
    (createdTime : Nat) (messages : List ChatMessage) (model : String)
    (clientResult : Except String String) : ChatResponse :=
  let body : Except String ChatResponse := do
    let tokenContent := String.intercalate "\n" (messages.map ChatMessage.content)
    let inputTokens := enc tokenContent
    let responseContent ← clientResult
    let outputTokens := enc responseContent
    Except.ok
      { id := chatId, object := "chat.completion", created := createdTime,
        model := model,
        usage := some ⟨inputTokens, outputTokens, inputTokens + outputTokens⟩,
        error := none,
        choices := [⟨⟨"assistant", responseContent⟩, 0, "stop"⟩] }
  match body with
  | Except.ok r => r
  | Except.error e =>
    { id := chatId, object := "chat.completion", created := createdTime,
      model := model, usage := none, error := some e,
      choices := [⟨⟨"assistant", "处理请求时发生错误: " ++ e⟩, 0, "error"⟩] }

/-! ## Claim theorems for the ConfigStore, ModelManager and SingleModel -/

/-- C4: every ConfigStore read on which a datastore error is raised returns
the empty result or None, every write returns False with the store unchanged,
and no error escapes as an exception (the operations are total functions);
only _init_db re-raises its datastore error. -/
theorem configStore_error_downgrade :
    ∀ (db : DBTables) (pid : Nat) (name key : String) (pc : ProviderConfigIn)
      (mc : ModelConfigIn) (cc : CompositeConfigIn) (v : PyValue)
      (icfg : ImportConfigIn) (mt : Option String),
      get_all_providers true db = [] ∧
      get_provider_for_name true db name = none ∧
      get_provider_for_id true db pid = none ∧
      get_all_models true db mt = [] ∧
      get_model_for_name true db name = none ∧
      get_model_for_id true db pid = none ∧
      get_all_composite_models true db = [] ∧
      get_composite_model true db name = none ∧
      get_all_settings true db = [] ∧
      get_setting true db key = none ∧
      save_provider true db pc = (false, db) ∧
      save_model true db mc = (false, db) ∧
      save_composite_model true db cc = (false, db) ∧
      save_setting true db key v = (false, db) ∧
      delete_provider true db pid = (false, db) ∧
      delete_model true db pid = (false, db) ∧
      delete_composite_model true db pid = (false, db) ∧
      delete_setting true db key = (false, db) ∧
      export_config true true true true db = ⟨[], [], [], []⟩ ∧
      runImportConfig true db icfg = (false, db) ∧
      initDb true db = Except.error () := by
  intro db pid name key pc mc cc v icfg mt
  exact ⟨rfl, rfl, rfl, rfl, rfl, rfl, rfl, rfl, rfl, rfl, rfl, rfl, rfl, rfl,
    rfl, rfl, rfl, rfl, rfl, rfl, rfl⟩

/-- The valid model row of the C5 failing input. -/
def c5mrow : ModelRow := ⟨1, 1, "general", "gpt-4", "m1", "openai", 1, 0⟩

/-- C5 failing input: a store whose models table holds one row. -/
def c5db : DBTables := ⟨[], [c5mrow], [], []⟩

/-- C5 failing input: the configuration produced by exporting c5db's models
section (it carries the row id, as export_config does). -/
def c5cfg : ImportConfigIn :=
  ⟨[], [⟨some 1, "m1", "gpt-4", "", some 1, false, true, "general", "openai"⟩], [], []⟩

/-- C5: evaluating import_config at the failing input: it reports success, yet
the store afterwards holds neither the imported records (the models table is
empty) nor the previous contents (which were non-empty); the deferred deletes
of the outer connection removed the pre-existing row while save_model's
always-failing statement silently imported nothing. -/
theorem runImportConfig_destroys_models :
    runImportConfig false c5db c5cfg = (true, ⟨[], [], [], []⟩) ∧
    c5db.models ≠ [] ∧ c5cfg.models ≠ [] := by
  refine ⟨by decide, by decide, by decide⟩

/-- The invalid provider row of the C6 counterexample. -/
def c6row : ProviderRow := ⟨1, "p1", "k1", "b1", "r1", "openai", 0⟩

/-- C6 counterexample store: one provider with is_valid = 0. -/
def c6db : DBTables := ⟨[c6row], [], [], []⟩

/-- C6 counterexample: a provider record stored with is_valid = 0 IS returned
by the provider lookups by id and by name, contradicting the claim that no
validity-dependent lookup returns it. -/
theorem provider_lookup_returns_invalid :
    c6row.is_valid = 0 ∧
    get_provider_for_id false c6db 1 = some (providerToDict c6row) ∧
    get_provider_for_name false c6db "p1" = some (providerToDict c6row) := by
  refine ⟨rfl, by decide, by decide⟩

theorem beq_nat_eq {a b : Nat} (h : (a == b) = true) : a = b := by simpa using h

/-- C6 amended: the Model and CompositeModel lookups by name or id filter on
is_valid = 1 and only return valid records; the Provider lookups by name and
by id have no validity filter (they can return a record with is_valid = 0, as
the store c6db exhibits). -/
theorem validity_filter_amended (db : DBTables) (name : String) (idv : Nat) :
    (∀ d, get_model_for_name false db name = some d → d.is_valid = true) ∧
    (∀ d, get_model_for_id false db idv = some d → d.is_valid = true) ∧
    (∀ d, get_composite_model false db name = some d → d.is_valid = true) ∧
    (∃ d, get_provider_for_id false c6db 1 = some d ∧ d.is_valid = false) := by
  refine ⟨?_, ?_, ?_, ⟨providerToDict c6row, by decide, by decide⟩⟩
  · intro d hd
    simp only [get_model_for_name, Bool.false_eq_true, if_false] at hd
    obtain ⟨r, hr, hmap⟩ := Option.map_eq_some'.mp hd
    have hp := List.find?_some hr
    rw [Bool.and_eq_true] at hp
    have h1 : r.is_valid = 1 := beq_nat_eq hp.1
    rw [← hmap, modelToDict]
    simp [h1]
  · intro d hd
    simp only [get_model_for_id, Bool.false_eq_true, if_false] at hd
    obtain ⟨r, hr, hmap⟩ := Option.map_eq_some'.mp hd
    have hp := List.find?_some hr
    rw [Bool.and_eq_true] at hp
    have h1 : r.is_valid = 1 := beq_nat_eq hp.1
    rw [← hmap, modelToDict]
    simp [h1]
  · intro d hd
    simp only [get_composite_model, Bool.false_eq_true, if_false] at hd
    obtain ⟨r, hr, hmap⟩ := Option.map_eq_some'.mp hd
    have hp := List.find?_some hr
    rw [Bool.and_eq_true] at hp
    have h1 : r.is_valid = 1 := beq_nat_eq hp.2
    rw [← hmap, compositeToDict]
    simp [h1]

/-- The valid model row used by the C6 witness store. -/
def c6vrow : ModelRow := ⟨1, 1, "general", "g", "m1", "openai", 1, 1⟩

/-- C6 witness store: one valid model row. -/
def c6vdb : DBTables := ⟨[], [c6vrow], [], []⟩

/-- Concrete instantiation of the amended C6 theorem. -/
theorem validity_filter_amended_witness :
    get_model_for_name false c6vdb "m1" = some (modelToDict c6vrow) ∧
    (modelToDict c6vrow).is_valid = true :=
  ⟨by decide, (validity_filter_amended c6vdb "m1" 1).1 (modelToDict c6vrow) (by decide)⟩

/-- C7: with an empty declared model type, resolution first attempts the
single-Model lookup (so a name present in both tables resolves to the single
Model record), falls back to the CompositeModel lookup (returned with type
"composite") only on a miss, and errors when both miss. -/
theorem empty_type_resolution (db : DBTables) (name : String) :
    (∀ m, get_model_for_name false db name = some m →
      get_model_details db name "" = Except.ok (Sum.inl m, m.model_type)) ∧
    (get_model_for_name false db name = none →
      (∀ cm, get_composite_model false db name = some cm →
        get_model_details db name "" = Except.ok (Sum.inr cm, "composite")) ∧
      (get_composite_model false db name = none →
        get_model_details db name "" =
          Except.error ("ValueError: model " ++ name ++ " does not exist"))) := by
  have hne : ¬ (("" : String) = "reasoner" ∨ ("" : String) = "general") := by decide
  have hnc : ¬ (("" : String) = "composite") := by decide
  constructor
  · intro m hm
    unfold get_model_details
    rw [if_neg hne, if_neg hnc, hm]
  · intro hnone
    constructor
    · intro cm hcm
      unfold get_model_details
      rw [if_neg hne, if_neg hnc, hnone, hcm]
    · intro hcnone
      unfold get_model_details
      rw [if_neg hne, if_neg hnc, hnone, hcnone]

/-- The model and composite rows of the C7 witness store: the same gateway
name occupies both tables. -/
def c7mrow : ModelRow := ⟨1, 1, "general", "g1", "dual", "openai", 1, 0⟩

def c7crow : CompositeRow := ⟨1, "dual", 1, 1, 1⟩

def c7dbBoth : DBTables := ⟨[], [c7mrow], [c7crow], []⟩

def c7dbComp : DBTables := ⟨[], [], [c7crow], []⟩

/-- Concrete instantiation of the C7 theorem: the ambiguous name resolves to
the single Model; with only the composite present, the fallback returns it
with type "composite". -/
theorem empty_type_resolution_witness :
    get_model_details c7dbBoth "dual" "" =
      Except.ok (Sum.inl (modelToDict c7mrow), "general") ∧
    get_model_details c7dbComp "dual" "" =
      Except.ok (Sum.inr (compositeToDict c7crow), "composite") :=
  ⟨(empty_type_resolution c7dbBoth "dual").1 (modelToDict c7mrow) (by decide),
   ((empty_type_resolution c7dbComp "dual").2 (by decide)).1
     (compositeToDict c7crow) (by decide)⟩

/-- The configured provider row of the C3 failing input. -/
def c3prow : ProviderRow := ⟨1, "p1", "key1", "base1", "addr1", "openai", 1⟩

/-- C3 failing input: the provider is configured and the default system
settings are seeded. -/
def c3db : DBTables := ⟨[c3prow], [], [], defaultSettings⟩

/-- The settings dictionary a ModelManager loads from c3db. -/
def c3cfg : List (String × PyValue) := get_all_settings false c3db

/-- C3: evaluating the resolution at the failing input: although the provider
and format are configured and the cache is empty, the first resolution raises
KeyError (create_instance subscripts the provider dict with "api_url", a key
the dict does not have; past that, config.get("proxy_open").bool() would raise
AttributeError) instead of constructing and caching a client. -/
theorem create_instance_always_raises :
    resolveInstance c3cfg c3db ⟨[], 0⟩ 1 "openai" =
      Except.error "KeyError: api_url" ∧
    get_provider_for_id false c3db 1 = some (providerToDict c3prow) := by
  refine ⟨rfl, by decide⟩

/-- C9: evaluating the settings round trip at the failing input True: because
Python bool is a subclass of int, save_setting stores the bool under type tag
"int" with text "True"; get_setting then fails int("True") and returns None
instead of the saved value. -/
theorem save_setting_bool_roundtrip_fails :
    pyTypeAndRepr (PyValue.pyBool true) = ("int", "True") ∧
    (save_setting false ⟨[], [], [], []⟩ "proxy_open" (PyValue.pyBool true)).2.settings =
      [⟨"proxy_open", "True", "int"⟩] ∧
    get_setting false (save_setting false ⟨[], [], [], []⟩ "proxy_open"
      (PyValue.pyBool true)).2 "proxy_open" = none := by
  refine ⟨rfl, by decide, by decide⟩

/-- C10: get_all_providers returns the empty dictionary on every store —
for a non-empty providers table because the row-decoding loop reads the
api_key column that its SELECT omitted (IndexError, downgraded to the empty
result), and for an empty table trivially — so export_config's providers
section is always empty. -/
theorem get_all_providers_always_empty (fail f2 f3 f4 : Bool) (db : DBTables) :
    get_all_providers fail db = [] ∧
    (export_config fail f2 f3 f4 db).providers = [] := by
  have h : get_all_providers fail db = [] := by
    cases fail with
    | true => rfl
    | false =>
      obtain ⟨ps, ms, cs, ss⟩ := db
      cases ps with
      | nil => rfl
      | cons p rest => rfl
  exact ⟨h, h⟩

/-- C8: when the vendor client raises, chat_completions_without_stream still
returns a well-formed response whose single choice has finish_reason "error",
whose top-level error field holds the error text, and whose message content
contains that text; on success the returned usage satisfies total_tokens =
prompt_tokens + completion_tokens. -/
theorem single_model_nonstream_contract (enc : String → Nat) (chatId : String)
    (createdTime : Nat) (messages : List ChatMessage) (model : String) :
    (∀ e,
      ((chat_completions_without_stream enc chatId createdTime messages model
          (Except.error e)).choices.map ChatChoice.finish_reason = ["error"]) ∧
      (chat_completions_without_stream enc chatId createdTime messages model
          (Except.error e)).error = some e ∧
      (∃ c0 pre, (chat_completions_without_stream enc chatId createdTime messages model
          (Except.error e)).choices = [c0] ∧ c0.message.content = pre ++ e)) ∧
    (∀ content, ∃ u,
      (chat_completions_without_stream enc chatId createdTime messages model
          (Except.ok content)).usage = some u ∧
      u.total_tokens = u.prompt_tokens + u.completion_tokens) := by
  constructor
  · intro e
    exact ⟨rfl, rfl, ⟨⟨⟨"assistant", "处理请求时发生错误: " ++ e⟩, 0, "error"⟩,
      "处理请求时发生错误: ", rfl, rfl⟩⟩
  · intro content
    exact ⟨_, rfl, rfl⟩

end DeepClaude
